import Mathlib

/-!
# go-db-helpers: connection acquisition and descriptor encoding

A shallow embedding of

* `db/connector.go`: `RetriableError`, `RetriableError.Error`, `GetConnectionPool`;
* `testsupport/db.go`: `encodeAsQueryString`, `postgresConnectionString`,
  `mysqlConnectionString`, `DBConfig`.

`GetConnectionPool` talks to `database/sql`; the three calls it makes
(`sql.Open`, `Ping`, `Close`) are taken from an environment that threads an
arbitrary world state, and every call is recorded in a trace.
-/

namespace DbHelpers

/-! ## Go `error` values -/

/-- Go `error` values, told apart by their dynamic type: `*net.OpError`,
`*net.DNSError`, `db.RetriableError` (connector.go:13-16), the string error
built by `fmt.Errorf`/`errors.New`, and any other error type. The string carried
by `netOpError`, `netDNSError` and `other` is what the value's `Error()` method
renders. -/
inductive GoError where
  | netOpError (msg : String)
  | netDNSError (msg : String)
  | RetriableError (Inner : GoError) (Msg : String)
  | errorString (s : String)
  | other (msg : String)
  deriving DecidableEq, Repr

namespace GoError

/-- The `Error()` method. For `RetriableError` this is connector.go:18-20,
`fmt.Sprintf("%s: %s", r.Msg, r.Inner.Error())`. -/
def Error : GoError → String
  | netOpError msg => msg
  | netDNSError msg => msg
  | RetriableError inner msg => msg ++ ": " ++ inner.Error
  | errorString s => s
  | other msg => msg

/-- The type assertion `err.(db.RetriableError)`. -/
def isRetriableError : GoError → Bool
  | RetriableError _ _ => true
  | _ => false

/-- Whether the error is one of the transport-level errors of package `net`:
an operation on a connection that failed (`*net.OpError`) or a name that could
not be resolved (`*net.DNSError`). -/
def isTransportLevel : GoError → Bool
  | netOpError _ => true
  | netDNSError _ => true
  | _ => false

/-- The type assertion `netErr, ok := err.(*net.OpError)` (connector.go:37):
`some netErr` when `ok`, where `netErr` is `err` itself. -/
def asNetOpError : GoError → Option GoError
  | netOpError msg => some (netOpError msg)
  | _ => none

end GoError

/-- The call `fmt.Errorf(lead + "%s", err)`: a string error whose text is `lead`
followed by `err.Error()`. -/
def Errorf (lead : String) (err : GoError) : GoError :=
  GoError.errorString (lead ++ err.Error)

/-! ## The data model of `db/connector.go` -/

/-- The type `db.Config`, as built at testsupport/db.go:95-98. -/
structure Config where
  Type_ : String
  ConnectionString : String
  deriving DecidableEq, Repr

/-- A `*sql.DB`, identified by its pointer. -/
structure SqlDB where
  id : Nat
  deriving DecidableEq, Repr

/-- A `*sqlx.DB`: the wrapped `*sql.DB` and the driver name it is labelled with. -/
structure SqlxDB where
  DB : SqlDB
  driverName : String
  deriving DecidableEq, Repr

/-- The constructor `sqlx.NewDb(db, driverName)`. -/
def NewDb (db : SqlDB) (driverName : String) : SqlxDB :=
  { DB := db, driverName := driverName }

/-- The calls `GetConnectionPool` makes on `database/sql`. -/
inductive Event where
  | sqlOpen (driverName dataSourceName : String)
  | ping (db : SqlDB)
  | close (db : SqlDB)
  deriving DecidableEq, Repr

/-- The environment of `GetConnectionPool`: `sql.Open` returns either a handle
or an error, `Ping` and `Close` return an optional error, and each may read and
change the world state `σ`. -/
structure SqlEnv (σ : Type) where
  sqlOpen : String → String → σ → Except GoError SqlDB × σ
  Ping : SqlDB → σ → Option GoError × σ
  Close : SqlDB → σ → Option GoError × σ

/-- What one call of `GetConnectionPool` leaves behind: the two Go return
values (`none` is `nil`), the calls it made in order, and the world state. -/
structure Outcome (σ : Type) where
  db : Option SqlxDB
  err : Option GoError
  trace : List Event
  state : σ
  deriving DecidableEq

/-- The driver name handed to `sql.Open` (connector.go:23-26). -/
def driverFor (dbType : String) : String :=
  if dbType = "postgres" then "pq-timeouts" else dbType

/-- The function `GetConnectionPool` (connector.go:22-47). -/
def GetConnectionPool {σ : Type} (env : SqlEnv σ) (dbConfig : Config) (s : σ) : Outcome σ :=
  let driver := driverFor dbConfig.Type_
  let opened := Event.sqlOpen driver dbConfig.ConnectionString
  match env.sqlOpen driver dbConfig.ConnectionString s with
  | (Except.error err, s1) =>
    { db := none, err := some (Errorf "unable to open database connection: " err),
      trace := [opened], state := s1 }
  | (Except.ok nativeDBConn, s1) =>
    let dbConn := NewDb nativeDBConn dbConfig.Type_
    match env.Ping dbConn.DB s1 with
    | (some err, s2) =>
      let s3 := (env.Close dbConn.DB s2).2
      match err.asNetOpError with
      | some netErr =>
        { db := none, err := some (GoError.RetriableError netErr "unable to ping"),
          trace := [opened, Event.ping dbConn.DB, Event.close dbConn.DB], state := s3 }
      | none =>
        { db := none, err := some (Errorf "unable to ping: " err),
          trace := [opened, Event.ping dbConn.DB, Event.close dbConn.DB], state := s3 }
    | (none, s2) =>
      { db := some dbConn, err := none,
        trace := [opened, Event.ping dbConn.DB], state := s2 }

/-- Whether an event is a call of `sql.Open`. -/
def Event.isOpen : Event → Bool
  | Event.sqlOpen _ _ => true
  | _ => false

/-- Whether an event is a call of `Ping`. -/
def Event.isPing : Event → Bool
  | Event.ping _ => true
  | _ => false

/-- Whether an event is a call of `Close`. -/
def Event.isClose : Event → Bool
  | Event.close _ => true
  | _ => false

/-- The environment `env` with a log of the calls made on it: every call does
what it does in `env` and is appended to the log, which is the second part of
the world state. The log holds the calls that were made, whatever the caller
says about them. -/
def logged {σ : Type} (env : SqlEnv σ) : SqlEnv (σ × List Event) where
  sqlOpen := fun driverName dataSourceName st =>
    ((env.sqlOpen driverName dataSourceName st.1).1,
      ((env.sqlOpen driverName dataSourceName st.1).2,
        st.2 ++ [Event.sqlOpen driverName dataSourceName]))
  Ping := fun h st => ((env.Ping h st.1).1, ((env.Ping h st.1).2, st.2 ++ [Event.ping h]))
  Close := fun h st => ((env.Close h st.1).1, ((env.Close h st.1).2, st.2 ++ [Event.close h]))

/-! ## `database/sql` with a driver registry -/

/-- The driver names registered by the blank imports of connector.go:8-9. The
name `postgres`, which `pq-timeouts` brings along through `lib/pq`, is left
out: `driverFor` never hands it to `sql.Open`. -/
def importedDrivers : List String := ["pq-timeouts", "mysql"]

/-- The `database/sql` environment over a registry of driver names. `sql.Open`
looks the driver name up: an unregistered name is the error `unknownDriver`
renders for it, a registered one gives a fresh handle without the data source
name being read or any connection being made. The outcome of `Ping` on a handle
is `pingResult`, that of `Close` is `nil`. The state is the number of handles
handed out so far. -/
def registryEnv (drivers : List String) (unknownDriver : String → GoError)
    (pingResult : SqlDB → Option GoError) : SqlEnv Nat where
  sqlOpen := fun driverName _ n =>
    if driverName ∈ drivers then (Except.ok { id := n }, n + 1)
    else (Except.error (unknownDriver driverName), n)
  Ping := fun h n => (pingResult h, n)
  Close := fun _ n => (none, n)

/-- The error of `sql.Open` for an unregistered driver name,
`fmt.Errorf("sql: unknown driver %q (forgotten import?)", driverName)`, with
`%q` written as the name between double quotes, which is what it renders for a
name of plain letters, digits and dashes. -/
def unknownDriverError (driverName : String) : GoError :=
  GoError.errorString ("sql: unknown driver " ++ String.singleton (Char.ofNat 34) ++ driverName ++
    String.singleton (Char.ofNat 34) ++ " (forgotten import?)")

/-- A backend that refuses the connection: every ping fails with a
`*net.OpError`. -/
def refusedPing : SqlDB → Option GoError :=
  fun _ => some (GoError.netOpError "dial tcp 127.0.0.1:5432: connect: connection refused")

/-- A backend whose host name does not resolve: every ping fails with a bare
`*net.DNSError`. -/
def unresolvedPing : SqlDB → Option GoError :=
  fun _ => some (GoError.netDNSError "lookup db.invalid: no such host")

/-- A backend that rejects the credentials: every ping fails with an error of
the driver that is not a `*net.OpError`. -/
def rejectedPing : SqlDB → Option GoError :=
  fun _ => some (GoError.other "pq: password authentication failed for user postgres")

/-- A driver that cannot make sense of the descriptor once it is asked to
connect: every ping fails with a string error. -/
def unparsedPing : SqlDB → Option GoError :=
  fun _ => some (GoError.errorString "cannot parse the connection info string")

/-- A reachable backend: every ping succeeds. -/
def livePing : SqlDB → Option GoError :=
  fun _ => none

/-! ## `net/url`: query escaping and `Values` -/

/-- The function `shouldEscape(c, encodeQueryComponent)` of `net/url`: only
ASCII letters, digits and `-`, `_`, `.`, `~` stay as they are. -/
def shouldEscape (c : Char) : Bool :=
  !((97 ≤ c.toNat && c.toNat ≤ 122) || (65 ≤ c.toNat && c.toNat ≤ 90) ||
    (48 ≤ c.toNat && c.toNat ≤ 57) ||
    c.toNat = 45 || c.toNat = 95 || c.toNat = 46 || c.toNat = 126)

/-- The table `upperhex` of `net/url`. -/
def upperhex (n : Nat) : Char :=
  "0123456789ABCDEF".toList.getD n '0'

/-- One escaped byte: `%` and two upper-case hexadecimal digits. -/
def escapeByte (b : Nat) : List Char :=
  ['%', upperhex (b / 16), upperhex (b % 16)]

/-- How `url.QueryEscape` writes one character: unchanged when it need not be
escaped, `+` for a space, and every byte of its UTF-8 encoding escaped
otherwise. -/
def escapeChar (c : Char) : List Char :=
  if shouldEscape c then
    if c = ' ' then ['+']
    else (String.utf8EncodeChar c).flatMap fun b => escapeByte b.toNat
  else [c]

/-- The function `url.QueryEscape`. -/
def QueryEscape (s : String) : String :=
  String.mk (s.toList.flatMap escapeChar)

/-- The type `url.Values`, a map from a key to the values added under it. -/
abbrev Values := List (String × List String)

/-- The lookup `v[k]` on `url.Values`: the empty slice for a missing key. -/
def Values.get (vs : Values) (k : String) : List String :=
  match vs.find? (fun e => decide (e.1 = k)) with
  | some e => e.2
  | none => []

/-- The method `Values.Add`: append `v` to the values of key `k`. -/
def Values.Add (vs : Values) (k v : String) : Values :=
  if vs.any (fun e => decide (e.1 = k)) then
    vs.map fun e => if e.1 = k then (e.1, e.2 ++ [v]) else e
  else vs ++ [(k, [v])]

/-- The order `sort.Strings` sorts by, on the characters of two strings: it
compares Go strings byte by byte, which on UTF-8 is the order of the code
points. -/
def charsLe : List Char → List Char → Bool
  | [], _ => true
  | _ :: _, [] => false
  | a :: as, b :: bs => decide (a.toNat < b.toNat) || (decide (a.toNat = b.toNat) && charsLe as bs)

/-- The order `sort.Strings` sorts by. -/
def StrLe (a b : String) : Prop := charsLe a.toList b.toList = true

instance : DecidableRel StrLe := fun a b =>
  inferInstanceAs (Decidable (charsLe a.toList b.toList = true))

/-- What `Values.Encode` writes for one key and one value, after what is in
the buffer already. -/
def encodeStep (keyEscaped : String) (buf : String) (v : String) : String :=
  (if buf.length > 0 then buf ++ "&" else buf) ++ keyEscaped ++ "=" ++ QueryEscape v

/-- The method `Values.Encode`: the keys sorted, and for each key every value
of it as `key=value`, both escaped, joined by `&`. -/
def Values.Encode (vs : Values) : String :=
  ((vs.map Prod.fst).insertionSort StrLe).foldl
    (fun buf k => (vs.get k).foldl (encodeStep (QueryEscape k)) buf) ""

/-! ## `testsupport/db.go` -/

/-- A value held in a Go `map[string]interface{}`, as far as `%v` tells them
apart: a string, an `int64`, a `bool`, or a value with a `String()` method
(a `time.Duration`) together with what that method renders. -/
inductive GoValue where
  | str (s : String)
  | int64 (i : Int)
  | bool (b : Bool)
  | stringer (rendered : String)
  deriving DecidableEq, Repr

/-- The call `fmt.Sprintf("%v", v)`. -/
def GoValue.format : GoValue → String
  | GoValue.str s => s
  | GoValue.int64 i => toString i
  | GoValue.bool b => if b then "true" else "false"
  | GoValue.stringer r => r

/-- A Go `map[string]interface{}`: its entries, in the order a `range` over it
visits them. -/
abbrev GoMap := List (String × GoValue)

/-- The assignment `m[k] = v`. -/
def GoMap.set (m : GoMap) (k : String) (v : GoValue) : GoMap :=
  if m.any (fun e => decide (e.1 = k)) then
    m.map fun e => if e.1 = k then (k, v) else e
  else m ++ [(k, v)]

/-- The function `encodeAsQueryString` (testsupport/db.go:33-39). -/
def encodeAsQueryString (values : GoMap) : String :=
  Values.Encode (values.foldl (fun queryValues e => Values.Add queryValues e.1 e.2.format) [])

/-- The type `DBConnectionInfo` (testsupport/db.go:17-26); a `time.Duration`
is its `int64` count of nanoseconds. -/
structure DBConnectionInfo where
  Type_ : String
  Hostname : String
  Port : String
  Username : String
  Password : String
  ConnectTimeout : Int
  ReadTimeout : Int
  WriteTimeout : Int
  deriving DecidableEq, Repr

/-- The type `TestDatabase` (testsupport/db.go:28-31). -/
structure TestDatabase where
  Name : String
  ConnInfo : DBConnectionInfo
  deriving DecidableEq, Repr

/-- The closure `asMilliseconds` (testsupport/db.go:61-63): Go's `/` on `int64`
truncates toward zero. -/
def asMilliseconds (dur : Int) : Int :=
  (dur.tdiv 1000).tdiv 1000

/-- The map `queryStringValues` of `postgresConnectionString` when it is
encoded (testsupport/db.go:64-77). -/
def postgresQueryStringValues (d : TestDatabase) : GoMap :=
  let m0 : GoMap := [("sslmode", GoValue.str "disable")]
  let m1 := if d.ConnInfo.ConnectTimeout ≠ 0 then
    m0.set "connect_timeout" (GoValue.int64 (asMilliseconds d.ConnInfo.ConnectTimeout)) else m0
  let m2 := if d.ConnInfo.ReadTimeout ≠ 0 then
    m1.set "read_timeout" (GoValue.int64 (asMilliseconds d.ConnInfo.ReadTimeout)) else m1
  if d.ConnInfo.WriteTimeout ≠ 0 then
    m2.set "write_timeout" (GoValue.int64 (asMilliseconds d.ConnInfo.WriteTimeout)) else m2

/-- What `postgresConnectionString` writes before the `?`. -/
def postgresAuthority (d : TestDatabase) : String :=
  "postgres://" ++ d.ConnInfo.Username ++ ":" ++ d.ConnInfo.Password ++ "@" ++
    d.ConnInfo.Hostname ++ ":" ++ d.ConnInfo.Port ++ "/" ++ d.Name

/-- The method `postgresConnectionString` (testsupport/db.go:60-83). -/
def postgresConnectionString (d : TestDatabase) : String :=
  postgresAuthority d ++ "?" ++ encodeAsQueryString (postgresQueryStringValues d)

/-- The map `queryStringValues` of `mysqlConnectionString` when it is encoded
(testsupport/db.go:42-53); `durationString` is `time.Duration.String`. -/
def mysqlQueryStringValues (durationString : Int → String) (d : TestDatabase) : GoMap :=
  let m0 : GoMap := [("parseTime", GoValue.bool true)]
  let m1 := if d.ConnInfo.ConnectTimeout ≠ 0 then
    m0.set "timeout" (GoValue.stringer (durationString d.ConnInfo.ConnectTimeout)) else m0
  let m2 := if d.ConnInfo.ReadTimeout ≠ 0 then
    m1.set "readTimeout" (GoValue.stringer (durationString d.ConnInfo.ReadTimeout)) else m1
  if d.ConnInfo.WriteTimeout ≠ 0 then
    m2.set "writeTimeout" (GoValue.stringer (durationString d.ConnInfo.WriteTimeout)) else m2

/-- The method `mysqlConnectionString` (testsupport/db.go:41-58). -/
def mysqlConnectionString (durationString : Int → String) (d : TestDatabase) : String :=
  d.ConnInfo.Username ++ ":" ++ d.ConnInfo.Password ++ "@tcp(" ++ d.ConnInfo.Hostname ++ ":" ++
    d.ConnInfo.Port ++ ")/" ++ d.Name ++ "?" ++
    encodeAsQueryString (mysqlQueryStringValues durationString d)

/-- The method `DBConfig` (testsupport/db.go:85-99). -/
def DBConfig (durationString : Int → String) (d : TestDatabase) : Config :=
  let connectionString :=
    if d.ConnInfo.Type_ = "mysql" then mysqlConnectionString durationString d
    else if d.ConnInfo.Type_ = "postgres" then postgresConnectionString d
    else "some unsupported db type connection string: " ++ d.ConnInfo.Type_ ++ "\n"
  { Type_ := d.ConnInfo.Type_, ConnectionString := connectionString }

/-- The parameters the query part of a Postgres descriptor is expected to
hold, as `key=value` in the order of the keys: each timeout only when it is not
zero, with its nanoseconds divided by 1,000,000. -/
def postgresParams (d : TestDatabase) : List String :=
  (if d.ConnInfo.ConnectTimeout ≠ 0 then
    ["connect_timeout=" ++ toString (d.ConnInfo.ConnectTimeout.tdiv 1000000)] else []) ++
  (if d.ConnInfo.ReadTimeout ≠ 0 then
    ["read_timeout=" ++ toString (d.ConnInfo.ReadTimeout.tdiv 1000000)] else []) ++
  ["sslmode=disable"] ++
  (if d.ConnInfo.WriteTimeout ≠ 0 then
    ["write_timeout=" ++ toString (d.ConnInfo.WriteTimeout.tdiv 1000000)] else [])

/-- The `url.Values` that `encodeAsQueryString` builds from a map, whose keys
are distinct: every key with the one value formatted for it. -/
def singletons (m : GoMap) : Values := m.map fun e => (e.1, [e.2.format])

/-- The test database of `GetPostgresDBConnectionInfo` (testsupport/db.go:149-160)
named `test`, with the read timeout of timeouts_test.go:109. -/
def examplePostgres : TestDatabase :=
  { Name := "test",
    ConnInfo :=
      { Type_ := "postgres", Hostname := "127.0.0.1", Port := "5432", Username := "postgres",
        Password := "", ConnectTimeout := 5000000000, ReadTimeout := 3000000000,
        WriteTimeout := 5000000000 } }

/-- The same test database under another backend kind. -/
def exampleOfKind (kind : String) : TestDatabase :=
  { examplePostgres with ConnInfo := { examplePostgres.ConnInfo with Type_ := kind } }

/-- What `time.Duration.String` renders for a whole number of seconds below a
minute, as all the durations of the test databases are. -/
def secondsString (ns : Int) : String :=
  toString (ns.tdiv 1000000000) ++ "s"

/-! ## The three paths of `GetConnectionPool` -/

theorem GetConnectionPool_of_open_error {σ : Type} (env : SqlEnv σ) (cfg : Config) (s s1 : σ)
    (e : GoError)
    (hopen : env.sqlOpen (driverFor cfg.Type_) cfg.ConnectionString s = (Except.error e, s1)) :
    GetConnectionPool env cfg s =
      { db := none, err := some (Errorf "unable to open database connection: " e),
        trace := [Event.sqlOpen (driverFor cfg.Type_) cfg.ConnectionString], state := s1 } := by
  simp only [GetConnectionPool, hopen]

theorem GetConnectionPool_of_ping_ok {σ : Type} (env : SqlEnv σ) (cfg : Config) (s s1 s2 : σ)
    (h : SqlDB)
    (hopen : env.sqlOpen (driverFor cfg.Type_) cfg.ConnectionString s = (Except.ok h, s1))
    (hping : env.Ping h s1 = (none, s2)) :
    GetConnectionPool env cfg s =
      { db := some (NewDb h cfg.Type_), err := none,
        trace := [Event.sqlOpen (driverFor cfg.Type_) cfg.ConnectionString, Event.ping h],
        state := s2 } := by
  simp only [GetConnectionPool, hopen, NewDb, hping]

theorem GetConnectionPool_of_ping_error {σ : Type} (env : SqlEnv σ) (cfg : Config) (s s1 s2 : σ)
    (h : SqlDB) (e : GoError)
    (hopen : env.sqlOpen (driverFor cfg.Type_) cfg.ConnectionString s = (Except.ok h, s1))
    (hping : env.Ping h s1 = (some e, s2)) :
    GetConnectionPool env cfg s =
      { db := none,
        err := some (match e.asNetOpError with
          | some netErr => GoError.RetriableError netErr "unable to ping"
          | none => Errorf "unable to ping: " e),
        trace := [Event.sqlOpen (driverFor cfg.Type_) cfg.ConnectionString, Event.ping h,
          Event.close h],
        state := (env.Close h s2).2 } := by
  simp only [GetConnectionPool, hopen, NewDb, hping]
  cases e.asNetOpError <;> rfl

/-- Running against the logged environment gives the same results as running
against the environment itself, and the calls logged are the calls of the
trace. -/
theorem GetConnectionPool_logged {σ : Type} (env : SqlEnv σ) (cfg : Config) (s : σ)
    (log : List Event) :
    GetConnectionPool (logged env) cfg (s, log) =
      { db := (GetConnectionPool env cfg s).db,
        err := (GetConnectionPool env cfg s).err,
        trace := (GetConnectionPool env cfg s).trace,
        state := ((GetConnectionPool env cfg s).state, log ++ (GetConnectionPool env cfg s).trace) } := by
  rcases hopen : env.sqlOpen (driverFor cfg.Type_) cfg.ConnectionString s with ⟨(e | h), s1⟩
  · rw [GetConnectionPool_of_open_error env cfg s s1 e hopen]
    exact GetConnectionPool_of_open_error (logged env) cfg (s, log) _ e (by simp [logged, hopen])
  · rcases hping : env.Ping h s1 with ⟨(_ | e), s2⟩
    · rw [GetConnectionPool_of_ping_ok env cfg s s1 s2 h hopen hping]
      rw [GetConnectionPool_of_ping_ok (logged env) cfg (s, log)
        (s1, log ++ [Event.sqlOpen (driverFor cfg.Type_) cfg.ConnectionString])
        (s2, log ++ [Event.sqlOpen (driverFor cfg.Type_) cfg.ConnectionString] ++ [Event.ping h])
        h (by simp [logged, hopen]) (by simp [logged, hping])]
      simp
    · rw [GetConnectionPool_of_ping_error env cfg s s1 s2 h e hopen hping]
      rw [GetConnectionPool_of_ping_error (logged env) cfg (s, log)
        (s1, log ++ [Event.sqlOpen (driverFor cfg.Type_) cfg.ConnectionString])
        (s2, log ++ [Event.sqlOpen (driverFor cfg.Type_) cfg.ConnectionString] ++ [Event.ping h])
        h e (by simp [logged, hopen]) (by simp [logged, hping])]
      simp [logged]

/-- The assertion to `*net.OpError` succeeds on a `*net.OpError`. -/
theorem asNetOpError_netOpError (m : String) :
    (GoError.netOpError m).asNetOpError = some (GoError.netOpError m) := rfl

/-- The value a successful assertion to `*net.OpError` gives is the error
itself. -/
theorem asNetOpError_eq_some {e n : GoError} (h : e.asNetOpError = some n) : n = e := by
  cases e <;> simp [GoError.asNetOpError] at h
  exact h.symm

/-! ## The acquisition contract -/

/-- C1: `GetConnectionPool` returns a non-nil handle with a nil error exactly
when `sql.Open` succeeded and the ping of the handle it returned succeeded; in
every other case the handle is nil and the error is non-nil. A handle that is
returned wraps the handle `sql.Open` gave, and that handle was pinged. -/
theorem GetConnectionPool_handle_iff_open_and_ping {σ : Type} (env : SqlEnv σ) (cfg : Config)
    (s : σ) :
    (((GetConnectionPool env cfg s).db ≠ none ∧ (GetConnectionPool env cfg s).err = none) ↔
      ∃ h s1, env.sqlOpen (driverFor cfg.Type_) cfg.ConnectionString s = (Except.ok h, s1) ∧
        (env.Ping h s1).1 = none) ∧
    (¬ ((GetConnectionPool env cfg s).db ≠ none ∧ (GetConnectionPool env cfg s).err = none) →
      (GetConnectionPool env cfg s).db = none ∧ (GetConnectionPool env cfg s).err ≠ none) ∧
    (∀ p, (GetConnectionPool env cfg s).db = some p →
      Event.ping p.DB ∈ (GetConnectionPool env cfg s).trace ∧
      ∃ s1, env.sqlOpen (driverFor cfg.Type_) cfg.ConnectionString s = (Except.ok p.DB, s1) ∧
        (env.Ping p.DB s1).1 = none) := by
  rcases hopen : env.sqlOpen (driverFor cfg.Type_) cfg.ConnectionString s with ⟨(e | h), s1⟩
  · rw [GetConnectionPool_of_open_error env cfg s s1 e hopen]
    simp
  · rcases hping : env.Ping h s1 with ⟨(_ | e), s2⟩
    · rw [GetConnectionPool_of_ping_ok env cfg s s1 s2 h hopen hping]
      simp [NewDb, hping]
      exact ⟨h, s1, ⟨rfl, rfl⟩, by rw [hping]⟩
    · rw [GetConnectionPool_of_ping_error env cfg s s1 s2 h e hopen hping]
      simp [hping]

/-- C2, amended: when `sql.Open` succeeds and the ping fails with an error `e`
whose dynamic type is `*net.OpError`, `GetConnectionPool` returns a nil handle
and the `RetriableError` whose `Inner` is `e` and whose `Msg` is
`"unable to ping"`. -/
theorem GetConnectionPool_retriable_of_net_error {σ : Type} (env : SqlEnv σ) (cfg : Config)
    (s s1 : σ) (h : SqlDB) (m : String)
    (hopen : env.sqlOpen (driverFor cfg.Type_) cfg.ConnectionString s = (Except.ok h, s1))
    (hping : (env.Ping h s1).1 = some (GoError.netOpError m)) :
    (GetConnectionPool env cfg s).db = none ∧
    (GetConnectionPool env cfg s).err =
      some (GoError.RetriableError (GoError.netOpError m) "unable to ping") := by
  rcases hp : env.Ping h s1 with ⟨r, s2⟩
  rw [hp] at hping
  simp only at hping
  subst hping
  rw [GetConnectionPool_of_ping_error env cfg s s1 s2 h _ hopen hp]
  simp [GoError.asNetOpError]

/-- C3: when `sql.Open` succeeds and the ping fails with an error `e` that is
not a `*net.OpError`, `GetConnectionPool` returns a nil handle and an error that
is not a `RetriableError` and renders as `"unable to ping: "` followed by
`e.Error()`, which is also what `RetriableError{Inner: e, Msg: "unable to ping"}`
renders. -/
theorem GetConnectionPool_ping_failure_not_retriable {σ : Type} (env : SqlEnv σ) (cfg : Config)
    (s s1 : σ) (h : SqlDB) (e : GoError)
    (hopen : env.sqlOpen (driverFor cfg.Type_) cfg.ConnectionString s = (Except.ok h, s1))
    (hping : (env.Ping h s1).1 = some e) (hnet : e.asNetOpError = none) :
    (GetConnectionPool env cfg s).db = none ∧
    (∃ x, (GetConnectionPool env cfg s).err = some x ∧ x.isRetriableError = false ∧
      x.Error = "unable to ping: " ++ e.Error ∧
      x.Error = (GoError.RetriableError e "unable to ping").Error) := by
  rcases hp : env.Ping h s1 with ⟨r, s2⟩
  rw [hp] at hping
  simp only at hping
  subst hping
  rw [GetConnectionPool_of_ping_error env cfg s s1 s2 h e hopen hp, hnet]
  refine ⟨rfl, Errorf "unable to ping: " e, rfl, rfl, rfl, ?_⟩
  simp only [Errorf, GoError.Error, String.append_assoc]
  rfl

/-- C5: when `sql.Open` returns an error `e`, `GetConnectionPool` returns a nil
handle and the string error `"unable to open database connection: "` followed
by `e.Error()`, which is not a `RetriableError`; the only call made is the
`sql.Open`, so nothing is pinged or closed, and the world is left as `sql.Open`
left it. -/
theorem GetConnectionPool_open_failure {σ : Type} (env : SqlEnv σ) (cfg : Config) (s : σ)
    (e : GoError)
    (hopen : (env.sqlOpen (driverFor cfg.Type_) cfg.ConnectionString s).1 = Except.error e) :
    (GetConnectionPool env cfg s).db = none ∧
    (∃ x, (GetConnectionPool env cfg s).err = some x ∧
      x.Error = "unable to open database connection: " ++ e.Error ∧
      x.isRetriableError = false) ∧
    (GetConnectionPool env cfg s).trace =
      [Event.sqlOpen (driverFor cfg.Type_) cfg.ConnectionString] ∧
    (∀ ev ∈ (GetConnectionPool env cfg s).trace, ev.isPing = false ∧ ev.isClose = false) ∧
    (GetConnectionPool env cfg s).state =
      (env.sqlOpen (driverFor cfg.Type_) cfg.ConnectionString s).2 := by
  rcases ho : env.sqlOpen (driverFor cfg.Type_) cfg.ConnectionString s with ⟨r, s1⟩
  rw [ho] at hopen
  simp only at hopen
  subst hopen
  rw [GetConnectionPool_of_open_error env cfg s s1 e ho]
  refine ⟨rfl, ⟨_, rfl, rfl, rfl⟩, rfl, ?_, rfl⟩
  simp [Event.isPing, Event.isClose]

/-- C6: once `sql.Open` has given a handle `h`: when the ping fails, whatever
the error, the trace is open, ping `h`, close `h`, so `h` is closed exactly
once, as the last call before the error is returned, and the returned world is
the one `Close` left; when the ping succeeds no call of `Close` is made and the
returned world is the one `Ping` left. -/
theorem GetConnectionPool_closes_on_ping_failure {σ : Type} (env : SqlEnv σ) (cfg : Config)
    (s s1 : σ) (h : SqlDB)
    (hopen : env.sqlOpen (driverFor cfg.Type_) cfg.ConnectionString s = (Except.ok h, s1)) :
    ((env.Ping h s1).1 ≠ none →
      (GetConnectionPool env cfg s).err ≠ none ∧
      (GetConnectionPool env cfg s).trace =
        [Event.sqlOpen (driverFor cfg.Type_) cfg.ConnectionString, Event.ping h, Event.close h] ∧
      (GetConnectionPool env cfg s).trace.count (Event.close h) = 1 ∧
      (GetConnectionPool env cfg s).trace.countP Event.isClose = 1 ∧
      (GetConnectionPool env cfg s).trace.getLast? = some (Event.close h) ∧
      (GetConnectionPool env cfg s).state = (env.Close h (env.Ping h s1).2).2) ∧
    ((env.Ping h s1).1 = none →
      (GetConnectionPool env cfg s).db = some (NewDb h cfg.Type_) ∧
      (GetConnectionPool env cfg s).trace.countP Event.isClose = 0 ∧
      (GetConnectionPool env cfg s).state = (env.Ping h s1).2) := by
  rcases hping : env.Ping h s1 with ⟨(_ | e), s2⟩
  · rw [GetConnectionPool_of_ping_ok env cfg s s1 s2 h hopen hping]
    simp [Event.isClose, List.countP_cons]
  · rw [GetConnectionPool_of_ping_error env cfg s s1 s2 h e hopen hping]
    simp [Event.isClose, List.countP_cons, List.count_cons]

/-- C7: one call of `GetConnectionPool` makes exactly one call of `sql.Open` on
its environment, and exactly one call of `Ping` when that `sql.Open` succeeded
and none when it failed; nothing is called again after a failure. The calls are
those the logged environment records, which are the calls of the trace; the
results are those of the unlogged run; and the world that is left is the one of
that single `sql.Open`, followed when it succeeded by the single `Ping` of the
handle, followed when that failed by the `Close` of the handle. -/
theorem GetConnectionPool_one_open_at_most_one_ping {σ : Type} (env : SqlEnv σ) (cfg : Config)
    (s : σ) :
    (GetConnectionPool (logged env) cfg (s, [])).state.2.countP Event.isOpen = 1 ∧
    (GetConnectionPool (logged env) cfg (s, [])).state.2.countP Event.isPing ≤ 1 ∧
    (GetConnectionPool (logged env) cfg (s, [])).state.2.countP Event.isPing =
      (match (env.sqlOpen (driverFor cfg.Type_) cfg.ConnectionString s).1 with
        | Except.ok _ => 1
        | Except.error _ => 0) ∧
    (GetConnectionPool (logged env) cfg (s, [])).state.2 = (GetConnectionPool env cfg s).trace ∧
    (GetConnectionPool (logged env) cfg (s, [])).db = (GetConnectionPool env cfg s).db ∧
    (GetConnectionPool (logged env) cfg (s, [])).err = (GetConnectionPool env cfg s).err ∧
    (GetConnectionPool (logged env) cfg (s, [])).state.1 = (GetConnectionPool env cfg s).state ∧
    (GetConnectionPool env cfg s).state =
      (match env.sqlOpen (driverFor cfg.Type_) cfg.ConnectionString s with
        | (Except.error _, s1) => s1
        | (Except.ok h, s1) =>
          match env.Ping h s1 with
          | (none, s2) => s2
          | (some _, s2) => (env.Close h s2).2) ∧
    (GetConnectionPool env cfg s).err =
      (match env.sqlOpen (driverFor cfg.Type_) cfg.ConnectionString s with
        | (Except.error e, _) => some (Errorf "unable to open database connection: " e)
        | (Except.ok h, s1) =>
          match (env.Ping h s1).1 with
          | none => none
          | some e =>
            match e.asNetOpError with
            | some netErr => some (GoError.RetriableError netErr "unable to ping")
            | none => some (Errorf "unable to ping: " e)) ∧
    (GetConnectionPool env cfg s).trace.countP Event.isOpen = 1 ∧
    (GetConnectionPool env cfg s).trace.countP Event.isPing ≤ 1 ∧
    (GetConnectionPool env cfg s).trace.countP Event.isPing =
      (match (env.sqlOpen (driverFor cfg.Type_) cfg.ConnectionString s).1 with
        | Except.ok _ => 1
        | Except.error _ => 0) := by
  rw [GetConnectionPool_logged env cfg s []]
  simp only [List.nil_append, true_and]
  rcases hopen : env.sqlOpen (driverFor cfg.Type_) cfg.ConnectionString s with ⟨(e | h), s1⟩
  · rw [GetConnectionPool_of_open_error env cfg s s1 e hopen]
    simp [Event.isOpen, Event.isPing, List.countP_cons]
  · rcases hping : env.Ping h s1 with ⟨(_ | e), s2⟩
    · rw [GetConnectionPool_of_ping_ok env cfg s s1 s2 h hopen hping]
      simp [Event.isOpen, Event.isPing, List.countP_cons, hping]
    · rw [GetConnectionPool_of_ping_error env cfg s s1 s2 h e hopen hping]
      cases hn : e.asNetOpError <;> simp [Event.isOpen, Event.isPing, List.countP_cons, hping, hn]

/-- C8: the first call `GetConnectionPool` makes on its environment, and its
only call of `sql.Open`, is `sql.Open` with the driver name `"pq-timeouts"` when
`config.Type` is `"postgres"` and `config.Type` itself otherwise, and with the
connection string unchanged. The outcome follows that call: when it gives a
handle whose ping succeeds, the sqlx handle returned wraps it and is labelled
with `config.Type`, and when it gives an error, that error is the one reported
as the open failure. -/
theorem GetConnectionPool_driver_resolution {σ : Type} (env : SqlEnv σ) (cfg : Config) (s : σ) :
    (GetConnectionPool (logged env) cfg (s, [])).state.2.head? =
      some (Event.sqlOpen (if cfg.Type_ = "postgres" then "pq-timeouts" else cfg.Type_)
        cfg.ConnectionString) ∧
    (∀ ev ∈ (GetConnectionPool (logged env) cfg (s, [])).state.2, ev.isOpen = true →
      ev = Event.sqlOpen (if cfg.Type_ = "postgres" then "pq-timeouts" else cfg.Type_)
        cfg.ConnectionString) ∧
    (∀ h s1,
      env.sqlOpen (if cfg.Type_ = "postgres" then "pq-timeouts" else cfg.Type_)
        cfg.ConnectionString s = (Except.ok h, s1) →
      (env.Ping h s1).1 = none →
      (GetConnectionPool env cfg s).db = some { DB := h, driverName := cfg.Type_ } ∧
      (GetConnectionPool env cfg s).err = none) ∧
    (∀ e s1,
      env.sqlOpen (if cfg.Type_ = "postgres" then "pq-timeouts" else cfg.Type_)
        cfg.ConnectionString s = (Except.error e, s1) →
      (GetConnectionPool env cfg s).db = none ∧
      (GetConnectionPool env cfg s).err =
        some (Errorf "unable to open database connection: " e) ∧
      (GetConnectionPool env cfg s).state = s1) ∧
    (GetConnectionPool env cfg s).trace.head? =
      some (Event.sqlOpen (if cfg.Type_ = "postgres" then "pq-timeouts" else cfg.Type_)
        cfg.ConnectionString) ∧
    (∀ ev ∈ (GetConnectionPool env cfg s).trace, ev.isOpen = true →
      ev = Event.sqlOpen (if cfg.Type_ = "postgres" then "pq-timeouts" else cfg.Type_)
        cfg.ConnectionString) ∧
    (∀ p, (GetConnectionPool env cfg s).db = some p → p.driverName = cfg.Type_) := by
  have hd : driverFor cfg.Type_ = (if cfg.Type_ = "postgres" then "pq-timeouts" else cfg.Type_) :=
    rfl
  rw [← hd, GetConnectionPool_logged env cfg s []]
  simp only [List.nil_append]
  rcases hopen : env.sqlOpen (driverFor cfg.Type_) cfg.ConnectionString s with ⟨(e | h), s1⟩
  · rw [GetConnectionPool_of_open_error env cfg s s1 e hopen]
    simp
  · rcases hping : env.Ping h s1 with ⟨(_ | e), s2⟩
    · rw [GetConnectionPool_of_ping_ok env cfg s s1 s2 h hopen hping]
      simp [Event.isOpen, NewDb, hping]
    · rw [GetConnectionPool_of_ping_error env cfg s s1 s2 h e hopen hping]
      simp [Event.isOpen, hping]

/-! ## Witnesses of the acquisition contract -/

/-- C2, amended, at a Postgres test database whose backend refuses the
connection. -/
theorem GetConnectionPool_retriable_of_net_error_witness :
    (GetConnectionPool (registryEnv importedDrivers unknownDriverError refusedPing)
      (DBConfig secondsString examplePostgres) 0).db = none ∧
    (GetConnectionPool (registryEnv importedDrivers unknownDriverError refusedPing)
      (DBConfig secondsString examplePostgres) 0).err =
      some (GoError.RetriableError
        (GoError.netOpError "dial tcp 127.0.0.1:5432: connect: connection refused")
        "unable to ping") :=
  GetConnectionPool_retriable_of_net_error
    (registryEnv importedDrivers unknownDriverError refusedPing)
    (DBConfig secondsString examplePostgres) 0 1 { id := 0 }
    "dial tcp 127.0.0.1:5432: connect: connection refused" (by rfl) (by rfl)

/-- C3 at a Postgres test database whose backend rejects the credentials. -/
theorem GetConnectionPool_ping_failure_not_retriable_witness :
    (GetConnectionPool (registryEnv importedDrivers unknownDriverError rejectedPing)
      (DBConfig secondsString examplePostgres) 0).db = none ∧
    (∃ x, (GetConnectionPool (registryEnv importedDrivers unknownDriverError rejectedPing)
        (DBConfig secondsString examplePostgres) 0).err = some x ∧
      x.isRetriableError = false ∧
      x.Error = "unable to ping: " ++
        (GoError.other "pq: password authentication failed for user postgres").Error ∧
      x.Error = (GoError.RetriableError
        (GoError.other "pq: password authentication failed for user postgres")
        "unable to ping").Error) :=
  GetConnectionPool_ping_failure_not_retriable
    (registryEnv importedDrivers unknownDriverError rejectedPing)
    (DBConfig secondsString examplePostgres) 0 1 { id := 0 }
    (GoError.other "pq: password authentication failed for user postgres")
    (by rfl) (by rfl) (by rfl)

/-- C5 at the test database of kind `oracle`, for which no driver is
registered. -/
theorem GetConnectionPool_open_failure_witness :
    (GetConnectionPool (registryEnv importedDrivers unknownDriverError livePing)
      (DBConfig secondsString (exampleOfKind "oracle")) 0).err =
      some (GoError.errorString
        "unable to open database connection: sql: unknown driver \"oracle\" (forgotten import?)") ∧
    (GetConnectionPool (registryEnv importedDrivers unknownDriverError livePing)
      (DBConfig secondsString (exampleOfKind "oracle")) 0).trace =
      [Event.sqlOpen "oracle" "some unsupported db type connection string: oracle\n"] := by
  have h := GetConnectionPool_open_failure
    (registryEnv importedDrivers unknownDriverError livePing)
    (DBConfig secondsString (exampleOfKind "oracle")) 0 (unknownDriverError "oracle") (by rfl)
  refine ⟨by decide, ?_⟩
  rw [h.2.2.1]
  decide

/-- C6 at a Postgres test database whose backend refuses the connection, and
at one whose backend is reachable. -/
theorem GetConnectionPool_closes_on_ping_failure_witness :
    (GetConnectionPool (registryEnv importedDrivers unknownDriverError refusedPing)
      (DBConfig secondsString examplePostgres) 0).trace.countP Event.isClose = 1 ∧
    (GetConnectionPool (registryEnv importedDrivers unknownDriverError livePing)
      (DBConfig secondsString examplePostgres) 0).trace.countP Event.isClose = 0 :=
  ⟨((GetConnectionPool_closes_on_ping_failure
      (registryEnv importedDrivers unknownDriverError refusedPing)
      (DBConfig secondsString examplePostgres) 0 1 { id := 0 } (by rfl)).1 (by decide)).2.2.2.1,
   ((GetConnectionPool_closes_on_ping_failure
      (registryEnv importedDrivers unknownDriverError livePing)
      (DBConfig secondsString examplePostgres) 0 1 { id := 0 } (by rfl)).2 (by rfl)).2.1⟩

/-- C2, as stated, fails at a ping that fails with a bare `*net.DNSError`: the
error is a transport-level one, but it is not a `*net.OpError`, so the handle is
closed and the error returned is the string error `"unable to ping: ..."`,
which is not a `RetriableError`. -/
theorem GetConnectionPool_dns_failure_counterexample :
    unresolvedPing { id := 0 } =
      some (GoError.netDNSError "lookup db.invalid: no such host") ∧
    (GoError.netDNSError "lookup db.invalid: no such host").isTransportLevel = true ∧
    GetConnectionPool (registryEnv importedDrivers unknownDriverError unresolvedPing)
      (DBConfig secondsString examplePostgres) 0 =
      { db := none,
        err := some (GoError.errorString "unable to ping: lookup db.invalid: no such host"),
        trace := [Event.sqlOpen "pq-timeouts" (postgresConnectionString examplePostgres),
          Event.ping { id := 0 }, Event.close { id := 0 }],
        state := 1 } ∧
    (GoError.errorString "unable to ping: lookup db.invalid: no such host").isRetriableError =
      false ∧
    (GetConnectionPool (registryEnv importedDrivers unknownDriverError unresolvedPing)
      (DBConfig secondsString examplePostgres) 0).err ≠
      some (GoError.RetriableError (GoError.netDNSError "lookup db.invalid: no such host")
        "unable to ping") := by
  refine ⟨by decide, by decide, by decide, by decide, by decide⟩

/-- C7 at a Postgres test database whose backend refuses the connection: the
calls made are one open, one ping and the close; and at the test database of
kind `oracle`: the one open and no ping. -/
theorem GetConnectionPool_one_open_at_most_one_ping_witness :
    (GetConnectionPool (logged (registryEnv importedDrivers unknownDriverError refusedPing))
      (DBConfig secondsString examplePostgres) (0, [])).state.2 =
      [Event.sqlOpen "pq-timeouts" (postgresConnectionString examplePostgres),
        Event.ping { id := 0 }, Event.close { id := 0 }] ∧
    (GetConnectionPool (logged (registryEnv importedDrivers unknownDriverError refusedPing))
      (DBConfig secondsString examplePostgres) (0, [])).state.2.countP Event.isPing = 1 ∧
    (GetConnectionPool (logged (registryEnv importedDrivers unknownDriverError livePing))
      (DBConfig secondsString (exampleOfKind "oracle")) (0, [])).state.2.countP Event.isOpen = 1 ∧
    (GetConnectionPool (logged (registryEnv importedDrivers unknownDriverError livePing))
      (DBConfig secondsString (exampleOfKind "oracle")) (0, [])).state.2.countP Event.isPing = 0 :=
  ⟨(GetConnectionPool_one_open_at_most_one_ping
      (registryEnv importedDrivers unknownDriverError refusedPing)
      (DBConfig secondsString examplePostgres) 0).2.2.2.1.trans (by decide),
   (GetConnectionPool_one_open_at_most_one_ping
      (registryEnv importedDrivers unknownDriverError refusedPing)
      (DBConfig secondsString examplePostgres) 0).2.2.1.trans (by decide),
   (GetConnectionPool_one_open_at_most_one_ping
      (registryEnv importedDrivers unknownDriverError livePing)
      (DBConfig secondsString (exampleOfKind "oracle")) 0).1,
   (GetConnectionPool_one_open_at_most_one_ping
      (registryEnv importedDrivers unknownDriverError livePing)
      (DBConfig secondsString (exampleOfKind "oracle")) 0).2.2.1.trans (by decide)⟩

/-- C8 at a Postgres test database with a reachable backend, where only the
drivers `pq-timeouts` and `mysql` are registered: the handle returned is
labelled `postgres`, and the first call made is `sql.Open` with the driver name
`pq-timeouts`. -/
theorem GetConnectionPool_driver_resolution_witness :
    ((GetConnectionPool (registryEnv importedDrivers unknownDriverError livePing)
        (DBConfig secondsString examplePostgres) 0).db =
        some { DB := { id := 0 }, driverName := "postgres" } ∧
      (GetConnectionPool (registryEnv importedDrivers unknownDriverError livePing)
        (DBConfig secondsString examplePostgres) 0).err = none) ∧
    (GetConnectionPool (logged (registryEnv importedDrivers unknownDriverError livePing))
      (DBConfig secondsString examplePostgres) (0, [])).state.2.head? =
      some (Event.sqlOpen "pq-timeouts" (postgresConnectionString examplePostgres)) :=
  ⟨(GetConnectionPool_driver_resolution
      (registryEnv importedDrivers unknownDriverError livePing)
      (DBConfig secondsString examplePostgres) 0).2.2.1 { id := 0 } 1 (by rfl) (by rfl),
   (GetConnectionPool_driver_resolution
      (registryEnv importedDrivers unknownDriverError livePing)
      (DBConfig secondsString examplePostgres) 0).1⟩

/-! ## Unregistered drivers -/

/-- With a registered driver the handle is pinged, whatever the descriptor and
whatever the ping then returns. -/
theorem GetConnectionPool_registered {drivers : List String} (unknownDriver : String → GoError)
    (pingResult : SqlDB → Option GoError) (cfg : Config) (n : Nat)
    (hreg : driverFor cfg.Type_ ∈ drivers) :
    Event.ping { id := n } ∈
      (GetConnectionPool (registryEnv drivers unknownDriver pingResult) cfg n).trace := by
  have hopen : (registryEnv drivers unknownDriver pingResult).sqlOpen (driverFor cfg.Type_)
      cfg.ConnectionString n = (Except.ok { id := n }, n + 1) := by
    simp [registryEnv, hreg]
  rcases hp : pingResult { id := n } with _ | e
  · rw [GetConnectionPool_of_ping_ok _ cfg n (n + 1) (n + 1) { id := n } hopen
      (by simp [registryEnv, hp])]
    simp
  · rw [GetConnectionPool_of_ping_error _ cfg n (n + 1) (n + 1) { id := n } e hopen
      (by simp [registryEnv, hp])]
    simp

/-- C4, as stated, fails at the backend kind `pq-timeouts`, which is neither
`postgres` nor `mysql`: its driver is registered, so with the descriptor the
test support writes for an unsupported kind the handle is opened, pinged and
closed and the error is a ping failure, and with a Postgres descriptor and a
reachable backend a live handle is returned. -/
theorem GetConnectionPool_unsupported_kind_counterexample :
    (DBConfig secondsString (exampleOfKind "pq-timeouts")).Type_ ≠ "postgres" ∧
    (DBConfig secondsString (exampleOfKind "pq-timeouts")).Type_ ≠ "mysql" ∧
    (DBConfig secondsString (exampleOfKind "pq-timeouts")).ConnectionString =
      "some unsupported db type connection string: pq-timeouts\n" ∧
    (GetConnectionPool (registryEnv importedDrivers unknownDriverError unparsedPing)
      (DBConfig secondsString (exampleOfKind "pq-timeouts")) 0) =
      { db := none,
        err := some (GoError.errorString
          "unable to ping: cannot parse the connection info string"),
        trace := [Event.sqlOpen "pq-timeouts"
            "some unsupported db type connection string: pq-timeouts\n",
          Event.ping { id := 0 }, Event.close { id := 0 }],
        state := 1 } ∧
    (GetConnectionPool (registryEnv importedDrivers unknownDriverError livePing)
      { Type_ := "pq-timeouts", ConnectionString := postgresConnectionString examplePostgres } 0) =
      { db := some { DB := { id := 0 }, driverName := "pq-timeouts" },
        err := none,
        trace := [Event.sqlOpen "pq-timeouts" (postgresConnectionString examplePostgres),
          Event.ping { id := 0 }],
        state := 1 } := by
  refine ⟨by decide, by decide, by decide, by decide, by decide⟩

/-- C4, amended: for every registry of drivers and every config whose resolved
driver name is not registered, whatever its connection descriptor,
`GetConnectionPool` returns a nil handle and an error whose message is
`"unable to open database connection: "` followed by the message of the
`sql.Open` error, and the only call made is that `sql.Open`: nothing is
pinged. With the drivers the connector imports this is every backend kind other
than `postgres`, `mysql` and `pq-timeouts`. -/
theorem GetConnectionPool_unregistered_driver (drivers : List String)
    (unknownDriver : String → GoError) (pingResult : SqlDB → Option GoError) (cfg : Config)
    (n : Nat) (hreg : driverFor cfg.Type_ ∉ drivers) :
    (GetConnectionPool (registryEnv drivers unknownDriver pingResult) cfg n).db = none ∧
    (∃ x, (GetConnectionPool (registryEnv drivers unknownDriver pingResult) cfg n).err = some x ∧
      x.Error = "unable to open database connection: " ++
        (unknownDriver (driverFor cfg.Type_)).Error) ∧
    (GetConnectionPool (registryEnv drivers unknownDriver pingResult) cfg n).trace =
      [Event.sqlOpen (driverFor cfg.Type_) cfg.ConnectionString] ∧
    (GetConnectionPool (registryEnv drivers unknownDriver pingResult) cfg n).trace.countP
      Event.isPing = 0 ∧
    ((cfg.Type_ ≠ "postgres" ∧ cfg.Type_ ≠ "mysql" ∧ cfg.Type_ ≠ "pq-timeouts") ↔
      driverFor cfg.Type_ ∉ importedDrivers) := by
  have hopen : (registryEnv drivers unknownDriver pingResult).sqlOpen (driverFor cfg.Type_)
      cfg.ConnectionString n = (Except.error (unknownDriver (driverFor cfg.Type_)), n) := by
    simp [registryEnv, hreg]
  rw [GetConnectionPool_of_open_error _ cfg n n _ hopen]
  refine ⟨rfl, ⟨_, rfl, rfl⟩, rfl, by simp [Event.isPing, List.countP_cons], ?_⟩
  unfold driverFor importedDrivers
  by_cases hp : cfg.Type_ = "postgres"
  · simp [hp]
  · simp [hp]
    tauto

/-- C4, amended, at the test database of kind `oracle`. -/
theorem GetConnectionPool_unregistered_driver_witness :
    (GetConnectionPool (registryEnv importedDrivers unknownDriverError livePing)
      (DBConfig secondsString (exampleOfKind "oracle")) 0).db = none ∧
    (GetConnectionPool (registryEnv importedDrivers unknownDriverError livePing)
      (DBConfig secondsString (exampleOfKind "oracle")) 0).trace.countP Event.isPing = 0 :=
  ⟨(GetConnectionPool_unregistered_driver importedDrivers unknownDriverError livePing
      (DBConfig secondsString (exampleOfKind "oracle")) 0 (by decide)).1,
   (GetConnectionPool_unregistered_driver importedDrivers unknownDriverError livePing
      (DBConfig secondsString (exampleOfKind "oracle")) 0 (by decide)).2.2.2.1⟩

/-! ## The query part of a Postgres descriptor -/

theorem asMilliseconds_eq (a : Int) : asMilliseconds a = a.tdiv 1000000 := by
  unfold asMilliseconds
  rcases a with n | n
  · show ((Int.ofNat n).tdiv 1000).tdiv 1000 = (Int.ofNat n).tdiv 1000000
    have h1 : (Int.ofNat n).tdiv 1000 = Int.ofNat (n / 1000) := rfl
    have h2 : (Int.ofNat (n / 1000)).tdiv 1000 = Int.ofNat (n / 1000 / 1000) := rfl
    have h3 : (Int.ofNat n).tdiv 1000000 = Int.ofNat (n / 1000000) := rfl
    rw [h1, h2, h3, Nat.div_div_eq_div_mul]
  · have h1 : (Int.negSucc n).tdiv 1000 = -Int.ofNat ((n + 1) / 1000) := rfl
    have h3 : (Int.negSucc n).tdiv 1000000 = -Int.ofNat ((n + 1) / 1000000) := rfl
    rw [h1, h3, Int.neg_tdiv]
    have h2 : (Int.ofNat ((n + 1) / 1000)).tdiv 1000 = Int.ofNat ((n + 1) / 1000 / 1000) := rfl
    rw [h2, Nat.div_div_eq_div_mul]

theorem escapeChar_of_not_shouldEscape {c : Char} (h : shouldEscape c = false) :
    escapeChar c = [c] := by
  simp [escapeChar, h]

theorem flatMap_escapeChar_eq (l : List Char) (h : ∀ c ∈ l, shouldEscape c = false) :
    l.flatMap escapeChar = l := by
  induction l with
  | nil => rfl
  | cons a t ih =>
    rw [List.flatMap_cons, escapeChar_of_not_shouldEscape (h a (List.mem_cons_self a t)),
      ih (fun c hc => h c (List.mem_cons_of_mem a hc))]
    rfl

theorem QueryEscape_eq_self (s : String) (h : ∀ c ∈ s.toList, shouldEscape c = false) :
    QueryEscape s = s := by
  unfold QueryEscape
  rw [flatMap_escapeChar_eq _ h]
  rfl

theorem shouldEscape_digitChar (d : Nat) (hd : d < 10) : shouldEscape (Nat.digitChar d) = false := by
  interval_cases d <;> decide

theorem shouldEscape_toDigitsCore (fuel n : Nat) (ds : List Char)
    (hds : ∀ c ∈ ds, shouldEscape c = false) :
    ∀ c ∈ Nat.toDigitsCore 10 fuel n ds, shouldEscape c = false := by
  induction fuel generalizing n ds with
  | zero => simpa [Nat.toDigitsCore] using hds
  | succ f ih =>
    have hcons : ∀ c ∈ Nat.digitChar (n % 10) :: ds, shouldEscape c = false := by
      intro c hc
      rcases List.mem_cons.1 hc with rfl | hc
      · exact shouldEscape_digitChar _ (Nat.mod_lt _ (by decide))
      · exact hds c hc
    unfold Nat.toDigitsCore
    simp only
    split
    · exact hcons
    · exact ih _ _ hcons

theorem shouldEscape_natRepr (n : Nat) : ∀ c ∈ (Nat.repr n).toList, shouldEscape c = false := by
  unfold Nat.repr Nat.toDigits
  exact shouldEscape_toDigitsCore _ _ _ (by simp)

theorem shouldEscape_intToString (i : Int) :
    ∀ c ∈ (toString i).toList, shouldEscape c = false := by
  rcases i with n | n
  · exact shouldEscape_natRepr n
  · intro c hc
    have : toString (Int.negSucc n) = "-" ++ Nat.repr (n + 1) := rfl
    rw [this] at hc
    have happ : ("-" ++ Nat.repr (n + 1)).toList = "-".toList ++ (Nat.repr (n + 1)).toList := by
      simp [String.toList]
    rw [happ, List.mem_append] at hc
    rcases hc with hc | hc
    · simp at hc
      subst hc
      decide
    · exact shouldEscape_natRepr _ c hc

theorem QueryEscape_intToString (i : Int) : QueryEscape (toString i) = toString i :=
  QueryEscape_eq_self _ (shouldEscape_intToString i)


theorem charsLe_total (a b : List Char) : charsLe a b = true ∨ charsLe b a = true := by
  induction a generalizing b with
  | nil => left; cases b <;> rfl
  | cons x xs ih =>
    cases b with
    | nil => right; rfl
    | cons y ys =>
      simp only [charsLe, Bool.or_eq_true, Bool.and_eq_true, decide_eq_true_eq]
      rcases Nat.lt_trichotomy x.toNat y.toNat with h | h | h
      · exact Or.inl (Or.inl h)
      · rcases ih ys with h2 | h2
        · exact Or.inl (Or.inr ⟨h, h2⟩)
        · exact Or.inr (Or.inr ⟨h.symm, h2⟩)
      · exact Or.inr (Or.inl h)

theorem charsLe_trans (a b c : List Char) (hab : charsLe a b = true) (hbc : charsLe b c = true) :
    charsLe a c = true := by
  induction a generalizing b c with
  | nil => cases c <;> rfl
  | cons x xs ih =>
    cases b with
    | nil => simp [charsLe] at hab
    | cons y ys =>
      cases c with
      | nil => simp [charsLe] at hbc
      | cons z zs =>
        simp only [charsLe, Bool.or_eq_true, Bool.and_eq_true, decide_eq_true_eq] at hab hbc ⊢
        rcases hab with h1 | ⟨h1, h1t⟩ <;> rcases hbc with h2 | ⟨h2, h2t⟩
        · exact Or.inl (by omega)
        · exact Or.inl (by omega)
        · exact Or.inl (by omega)
        · exact Or.inr ⟨by omega, ih ys zs h1t h2t⟩

theorem charsLe_antisymm (a b : List Char) (hab : charsLe a b = true) (hba : charsLe b a = true) :
    a = b := by
  induction a generalizing b with
  | nil =>
    cases b with
    | nil => rfl
    | cons y ys => simp [charsLe] at hba
  | cons x xs ih =>
    cases b with
    | nil => simp [charsLe] at hab
    | cons y ys =>
      simp only [charsLe, Bool.or_eq_true, Bool.and_eq_true, decide_eq_true_eq] at hab hba
      rcases hab with h1 | ⟨h1, h1t⟩ <;> rcases hba with h2 | ⟨h2, h2t⟩
      · omega
      · omega
      · omega
      · have hx : x = y := by
          apply Char.ext
          apply UInt32.ext
          exact h1
        rw [hx, ih ys h1t h2t]

theorem insertionSort_eq_of_perm {l l' : List String} (h : l.Perm l') :
    l.insertionSort StrLe = l'.insertionSort StrLe :=
  haveI : IsTotal String StrLe := ⟨fun a b => charsLe_total a.toList b.toList⟩
  haveI : IsTrans String StrLe := ⟨fun a b c => charsLe_trans a.toList b.toList c.toList⟩
  haveI : IsAntisymm String StrLe :=
    ⟨fun a b hab hba => String.ext (charsLe_antisymm a.toList b.toList hab hba)⟩
  List.eq_of_perm_of_sorted
    (((List.perm_insertionSort StrLe l).trans h).trans (List.perm_insertionSort StrLe l').symm)
    (List.sorted_insertionSort StrLe l) (List.sorted_insertionSort StrLe l')

theorem foldl_Add_eq (m : GoMap) (acc : Values) (hnd : (m.map Prod.fst).Nodup)
    (hdis : ∀ e ∈ m, ∀ a ∈ acc, a.1 ≠ e.1) :
    m.foldl (fun queryValues e => Values.Add queryValues e.1 e.2.format) acc =
      acc ++ singletons m := by
  induction m generalizing acc with
  | nil => simp [singletons]
  | cons e t ih =>
    have hadd : Values.Add acc e.1 e.2.format = acc ++ [(e.1, [e.2.format])] := by
      unfold Values.Add
      rw [if_neg]
      simp only [List.any_eq_true, decide_eq_true_eq, not_exists, not_and]
      intro a ha
      exact hdis e (List.mem_cons_self e t) a ha
    rw [List.foldl_cons, hadd]
    rw [List.map_cons, List.nodup_cons] at hnd
    rw [ih _ hnd.2]
    · simp [singletons]
    · intro e' he' a ha
      rcases List.mem_append.1 ha with ha | ha
      · exact hdis e' (List.mem_cons_of_mem e he') a ha
      · simp only [List.mem_singleton] at ha
        subst ha
        intro heq
        exact hnd.1 (heq ▸ List.mem_map_of_mem Prod.fst he')

theorem encodeAsQueryString_eq (m : GoMap) (hnd : (m.map Prod.fst).Nodup) :
    encodeAsQueryString m = Values.Encode (singletons m) := by
  unfold encodeAsQueryString
  rw [foldl_Add_eq m [] hnd (by simp)]
  simp

theorem Values.get_of_mem (vs : Values) (hnd : (vs.map Prod.fst).Nodup) (e : String × List String)
    (he : e ∈ vs) : Values.get vs e.1 = e.2 := by
  induction vs with
  | nil => simp at he
  | cons a t ih =>
    rw [List.map_cons, List.nodup_cons] at hnd
    unfold Values.get
    rcases List.mem_cons.1 he with rfl | he
    · simp
    · have hne : a.1 ≠ e.1 := fun heq => hnd.1 (heq ▸ List.mem_map_of_mem Prod.fst he)
      rw [List.find?_cons_of_neg _ (by simpa using hne)]
      exact ih hnd.2 he

theorem Values.get_of_not_mem (vs : Values) (k : String) (hk : k ∉ vs.map Prod.fst) :
    Values.get vs k = [] := by
  unfold Values.get
  have : vs.find? (fun e => decide (e.1 = k)) = none := by
    rw [List.find?_eq_none]
    intro x hx hxk
    simp only [decide_eq_true_eq] at hxk
    exact hk (hxk ▸ List.mem_map_of_mem Prod.fst hx)
  rw [this]

theorem Values.get_eq_of_perm {vs vs' : Values} (hp : vs.Perm vs')
    (hnd : (vs.map Prod.fst).Nodup) (k : String) : Values.get vs k = Values.get vs' k := by
  have hnd' : (vs'.map Prod.fst).Nodup := (hp.map Prod.fst).nodup_iff.1 hnd
  by_cases hk : k ∈ vs.map Prod.fst
  · obtain ⟨e, he, rfl⟩ := List.mem_map.1 hk
    rw [Values.get_of_mem vs hnd e he, Values.get_of_mem vs' hnd' e (hp.mem_iff.1 he)]
  · rw [Values.get_of_not_mem vs k hk,
      Values.get_of_not_mem vs' k (fun h => hk ((hp.map Prod.fst).mem_iff.2 h))]

theorem Values.Encode_eq_of_perm {vs vs' : Values} (hp : vs.Perm vs')
    (hnd : (vs.map Prod.fst).Nodup) : Values.Encode vs = Values.Encode vs' := by
  unfold Values.Encode
  rw [insertionSort_eq_of_perm (hp.map Prod.fst)]
  congr 1
  funext buf k
  rw [Values.get_eq_of_perm hp hnd k]

theorem encodeAsQueryString_eq_of_perm {m m' : GoMap} (hp : m.Perm m')
    (hnd : (m.map Prod.fst).Nodup) : encodeAsQueryString m = encodeAsQueryString m' := by
  have hnd' : (m'.map Prod.fst).Nodup := (hp.map Prod.fst).nodup_iff.1 hnd
  have hs : ((singletons m).map Prod.fst).Nodup := by
    simpa [singletons, Function.comp_def] using hnd
  rw [encodeAsQueryString_eq m hnd, encodeAsQueryString_eq m' hnd']
  exact Values.Encode_eq_of_perm (hp.map _) hs


theorem postgresQueryStringValues_eq (d : TestDatabase) :
    postgresQueryStringValues d =
      [("sslmode", GoValue.str "disable")] ++
      (if d.ConnInfo.ConnectTimeout ≠ 0 then
        [("connect_timeout", GoValue.int64 (asMilliseconds d.ConnInfo.ConnectTimeout))] else []) ++
      (if d.ConnInfo.ReadTimeout ≠ 0 then
        [("read_timeout", GoValue.int64 (asMilliseconds d.ConnInfo.ReadTimeout))] else []) ++
      (if d.ConnInfo.WriteTimeout ≠ 0 then
        [("write_timeout", GoValue.int64 (asMilliseconds d.ConnInfo.WriteTimeout))] else []) := by
  unfold postgresQueryStringValues GoMap.set
  by_cases h1 : d.ConnInfo.ConnectTimeout = 0 <;> by_cases h2 : d.ConnInfo.ReadTimeout = 0 <;>
    by_cases h3 : d.ConnInfo.WriteTimeout = 0 <;> simp [h1, h2, h3]

theorem postgresQueryStringValues_nodup (d : TestDatabase) :
    ((postgresQueryStringValues d).map Prod.fst).Nodup := by
  rw [postgresQueryStringValues_eq]
  by_cases h1 : d.ConnInfo.ConnectTimeout = 0 <;> by_cases h2 : d.ConnInfo.ReadTimeout = 0 <;>
    by_cases h3 : d.ConnInfo.WriteTimeout = 0 <;> simp [h1, h2, h3]


theorem encodeStep_empty (k v : String) : encodeStep k "" v = k ++ "=" ++ QueryEscape v := by
  simp [encodeStep]

theorem encodeStep_of_pos (k buf v : String) (h : 0 < buf.length) :
    encodeStep k buf v = buf ++ "&" ++ k ++ "=" ++ QueryEscape v := by
  unfold encodeStep
  rw [if_pos h]

theorem length_keyValue_pos (a c : String) : 0 < (a ++ "=" ++ c).length := by
  rw [String.length_append, String.length_append]
  have : "=".length = 1 := rfl
  omega

theorem encodeStep_keyValue (k a c v : String) :
    encodeStep k (a ++ "=" ++ c) v = a ++ "=" ++ c ++ "&" ++ k ++ "=" ++ QueryEscape v :=
  encodeStep_of_pos k _ v (length_keyValue_pos a c)

theorem strLe_keys :
    StrLe "connect_timeout" "read_timeout" ∧ StrLe "connect_timeout" "sslmode" ∧
    StrLe "connect_timeout" "write_timeout" ∧ StrLe "read_timeout" "sslmode" ∧
    StrLe "read_timeout" "write_timeout" ∧ StrLe "sslmode" "write_timeout" ∧
    ¬ StrLe "read_timeout" "connect_timeout" ∧ ¬ StrLe "sslmode" "connect_timeout" ∧
    ¬ StrLe "write_timeout" "connect_timeout" ∧ ¬ StrLe "sslmode" "read_timeout" ∧
    ¬ StrLe "write_timeout" "read_timeout" ∧ ¬ StrLe "write_timeout" "sslmode" := by
  decide

theorem QueryEscape_keys :
    QueryEscape "connect_timeout" = "connect_timeout" ∧
    QueryEscape "read_timeout" = "read_timeout" ∧
    QueryEscape "write_timeout" = "write_timeout" ∧
    QueryEscape "sslmode" = "sslmode" ∧ QueryEscape "disable" = "disable" := by
  decide

theorem keyValue_literals :
    "connect_timeout=" = "connect_timeout" ++ "=" ∧ "read_timeout=" = "read_timeout" ++ "=" ∧
    "write_timeout=" = "write_timeout" ++ "=" ∧ "sslmode=disable" = "sslmode" ++ "=" ++ "disable" := by
  decide

theorem postgres_encode_canonical (d : TestDatabase) :
    Values.Encode (singletons (postgresQueryStringValues d)) =
      "&".intercalate (postgresParams d) := by
  rw [postgresQueryStringValues_eq]
  unfold postgresParams
  simp only [asMilliseconds_eq]
  obtain ⟨l1, l2, l3, l4, l5, l6, n1, n2, n3, n4, n5, n6⟩ := strLe_keys
  obtain ⟨q1, q2, q3, q4, q5⟩ := QueryEscape_keys
  obtain ⟨k1, k2, k3, k4⟩ := keyValue_literals
  by_cases h1 : d.ConnInfo.ConnectTimeout = 0 <;> by_cases h2 : d.ConnInfo.ReadTimeout = 0 <;>
    by_cases h3 : d.ConnInfo.WriteTimeout = 0
  all_goals
    simp only [h1, h2, h3, ne_eq, not_true_eq_false, not_false_eq_true, if_true, if_false,
      List.append_nil, List.nil_append, List.cons_append, singletons, List.map_cons, List.map_nil,
      GoValue.format, Values.Encode]
    simp only [List.insertionSort, List.orderedInsert, l1, l2, l3, l4, l5, l6, n1, n2, n3, n4, n5,
      n6, if_true, if_false, List.foldl_cons, List.foldl_nil]
    simp [Values.get]
    simp only [encodeStep_empty, encodeStep_keyValue, q1, q2, q3, q4, q5, QueryEscape_intToString]
    simp only [String.intercalate, String.intercalate.go, k1, k2, k3, k4, String.append_assoc]


/-- C10: the connection string of `postgresConnectionString` is the authority
part, `?`, and the parameters joined by `&`: `connect_timeout` when
`ConnectTimeout` is not zero, `read_timeout` when `ReadTimeout` is not zero,
`sslmode=disable` always, `write_timeout` when `WriteTimeout` is not zero, each
timeout with the decimal of its nanoseconds divided by 1,000,000, and nothing
else. The query part is the same in whatever order the `range` over the map
visits the entries. -/
theorem postgresConnectionString_query (d : TestDatabase) :
    postgresConnectionString d = postgresAuthority d ++ "?" ++ "&".intercalate
      ((if d.ConnInfo.ConnectTimeout ≠ 0 then
          ["connect_timeout=" ++ toString (d.ConnInfo.ConnectTimeout.tdiv 1000000)] else []) ++
        (if d.ConnInfo.ReadTimeout ≠ 0 then
          ["read_timeout=" ++ toString (d.ConnInfo.ReadTimeout.tdiv 1000000)] else []) ++
        ["sslmode=disable"] ++
        (if d.ConnInfo.WriteTimeout ≠ 0 then
          ["write_timeout=" ++ toString (d.ConnInfo.WriteTimeout.tdiv 1000000)] else [])) ∧
    (∀ m : GoMap, m.Perm (postgresQueryStringValues d) →
      encodeAsQueryString m = encodeAsQueryString (postgresQueryStringValues d)) := by
  constructor
  · unfold postgresConnectionString
    rw [encodeAsQueryString_eq _ (postgresQueryStringValues_nodup d), postgres_encode_canonical]
    rfl
  · intro m hm
    exact (encodeAsQueryString_eq_of_perm hm.symm (postgresQueryStringValues_nodup d)).symm

/-- C10 at the Postgres test database with a read timeout of 3s and connect and
write timeouts of 5s. -/
theorem postgresConnectionString_query_witness :
    postgresConnectionString examplePostgres =
      "postgres://postgres:@127.0.0.1:5432/test?connect_timeout=5000&read_timeout=3000&sslmode=disable&write_timeout=5000" :=
  (postgresConnectionString_query examplePostgres).1.trans (by decide)

end DbHelpers
